import Mathlib

/-!
Verification of the LuckyTriple betting backend (src/backend/server.js).

The server is a set of REST handlers over a document store.  We embed each
handler that the claims mention as a pure Lean function: the relevant slice
of the database (users, transactions, game settings) is passed in and the
updated slice is returned together with the HTTP response.  Monetary values
are rationals; random draws are passed in as explicit arguments.
-/

namespace LuckyTriple

/-! ## Data model (DATABASE MODELS section of server.js) -/

/-- Transaction `type` enum from `transactionSchema`. -/
inductive TxType where
  | deposit
  | withdrawal
  | bet
  | win
  | credit
deriving Repr, DecidableEq

/-- Transaction `status` enum from `transactionSchema`. -/
inductive TxStatus where
  | pending
  | completed
  | approved
  | rejected
deriving Repr, DecidableEq

/-- A user document (`userSchema`): email, password hash, phone, balance,
admin flag, creation time.  `id` stands for the Mongo `_id`. -/
structure User where
  id : Nat
  email : String
  password : String
  phone : String
  balance : ℚ
  isAdmin : Bool
  createdAt : Nat
deriving Repr, DecidableEq

/-- A transaction document (`transactionSchema`), restricted to the fields
the handlers under scrutiny read or write. -/
structure Transaction where
  id : Nat
  userId : Nat
  type : TxType
  amount : ℚ
  status : TxStatus
  reference : String
deriving Repr, DecidableEq

/-- A ledger entry as created by the game-play handler (a `Transaction`
document without an identity, since the claims only count them). -/
structure LedgerEntry where
  type : TxType
  amount : ℚ
  status : TxStatus
deriving Repr, DecidableEq

/-- A game-history document (`gameHistorySchema`). -/
structure GameRecord where
  betAmount : ℚ
  guesses : List Nat
  winningNumbers : List Nat
  matchCount : Nat
  profit : ℚ
  balanceBefore : ℚ
  balanceAfter : ℚ
deriving Repr, DecidableEq

/-- The nested `payoutMultipliers` object of `gameSettingsSchema`. -/
structure PayoutMultipliers where
  threeMatches : ℚ
  twoMatches : ℚ
  oneMatch : ℚ
deriving Repr, DecidableEq

/-- The game-settings document (`gameSettingsSchema`). -/
structure GameSettings where
  houseFee : ℚ
  maxBet : ℚ
  minBet : ℚ
  payoutMultipliers : PayoutMultipliers
deriving Repr, DecidableEq

/-- The schema defaults of `gameSettingsSchema`. -/
def defaultGameSettings : GameSettings :=
  { houseFee := 10
    maxBet := 1000
    minBet := 1
    payoutMultipliers := { threeMatches := 100, twoMatches := 10, oneMatch := 2 } }

/-- The JSON response envelope: either a success payload or an error with an
HTTP status code. -/
inductive Resp where
  | ok (message : String)
  | err (code : Nat) (message : String)
deriving Repr, DecidableEq

/-! ## Game play (`app.post('/api/game/play')`) -/

/-- The match-counting loop of the play handler: a position-wise walk over the
guesses, incrementing the count whenever the guess equals the drawn digit at
the same index. -/
def countMatches (guesses winningNumbers : List Nat) : Nat :=
  (guesses.zip winningNumbers).countP fun p => p.1 == p.2

/-- The `winAmount` cascade of the play handler: `bet * threeMatches` on three
matches, `bet * twoMatches` on two, `bet * oneMatch` on one, otherwise 0. -/
def winAmountOf (settings : GameSettings) (bet : ℚ) (matchCount : Nat) : ℚ :=
  if matchCount == 3 then bet * settings.payoutMultipliers.threeMatches
  else if matchCount == 2 then bet * settings.payoutMultipliers.twoMatches
  else if matchCount == 1 then bet * settings.payoutMultipliers.oneMatch
  else 0

/-- The match-count-to-multiplier table the spec speaks of, read off the same
cascade (multiplier 0 for zero matches). -/
def multiplierTable (settings : GameSettings) (matchCount : Nat) : ℚ :=
  if matchCount == 3 then settings.payoutMultipliers.threeMatches
  else if matchCount == 2 then settings.payoutMultipliers.twoMatches
  else if matchCount == 1 then settings.payoutMultipliers.oneMatch
  else 0

theorem winAmountOf_eq_mul (settings : GameSettings) (bet : ℚ) (matchCount : Nat) :
    winAmountOf settings bet matchCount = bet * multiplierTable settings matchCount := by
  unfold winAmountOf multiplierTable
  split
  · rfl
  split
  · rfl
  split
  · rfl
  · exact (mul_zero bet).symm

/-- Everything the play handler produces: the response data, the user's saved
balance, the persisted `GameHistory` document and the persisted `Transaction`
ledger entries. -/
structure PlayOutcome where
  error : Option String
  newBalance : ℚ
  record : Option GameRecord
  entries : List LedgerEntry
deriving Repr, DecidableEq

/-- The play handler.  `balance` is the authenticated user's balance and
`winningNumbers` is the random draw (three digits), passed in explicitly.
Validation, settlement and persistence follow the source line by line. -/
def gamePlay (settings : GameSettings) (balance bet : ℚ)
    (guesses winningNumbers : List Nat) : PlayOutcome :=
  if bet ≤ 0 ∨ guesses.length ≠ 3 then
    ⟨some "Invalid game parameters", balance, none, []⟩
  else if bet < settings.minBet ∨ settings.maxBet < bet then
    ⟨some "Bet must be between minBet and maxBet", balance, none, []⟩
  else if balance < bet then
    ⟨some "Insufficient balance", balance, none, []⟩
  else
    let matchCount := countMatches guesses winningNumbers
    let winAmount := winAmountOf settings bet matchCount
    let profit := winAmount - bet
    ⟨none, balance + profit,
      some ⟨bet, guesses, winningNumbers, matchCount, profit, balance, balance + profit⟩,
      ⟨TxType.bet, bet, TxStatus.completed⟩ ::
        (if 0 < winAmount then [⟨TxType.win, winAmount, TxStatus.completed⟩] else [])⟩

/-! ## Withdrawal approval and rejection (`/api/admin/approve-withdrawal`,
`/api/admin/reject-withdrawal`) -/

/-- The database slice these handlers touch: the user and transaction
collections. -/
structure St where
  users : List User
  txs : List Transaction
deriving Repr, DecidableEq

/-- `Transaction.findById`. -/
def findTx (st : St) (txId : Nat) : Option Transaction :=
  st.txs.find? fun t => t.id == txId

/-- `User.findById` (also the `populate('userId')` lookup). -/
def findUser (st : St) (uid : Nat) : Option User :=
  st.users.find? fun u => u.id == uid

/-- The approve-withdrawal handler.  Branch order follows the source: 404 when
the transaction is missing, 400 when it is no longer pending, 500 when the
populated user is missing (the handler dereferences it and the throw is caught
by the surrounding handler), 400 when the user's balance is below the amount,
otherwise debit the balance and mark the transaction approved. -/
def approveWithdrawal (st : St) (txId : Nat) : St × Resp :=
  match findTx st txId with
  | none => (st, Resp.err 404 "Transaction not found")
  | some tx =>
    if tx.status ≠ TxStatus.pending then
      (st, Resp.err 400 "Transaction already processed")
    else
      match findUser st tx.userId with
      | none => (st, Resp.err 500 "Failed to approve withdrawal")
      | some u =>
        if u.balance < tx.amount then
          (st, Resp.err 400 "User has insufficient balance")
        else
          ({ users := st.users.map fun v =>
               if v.id == u.id then { v with balance := v.balance - tx.amount } else v,
             txs := st.txs.map fun t =>
               if t.id == txId then { t with status := TxStatus.approved } else t },
           Resp.ok "Withdrawal approved successfully")

/-- The reject-withdrawal handler: 404 when missing, 400 when not pending,
otherwise mark the transaction rejected and store the optional reason in its
`reference` field.  The balance is never touched. -/
def rejectWithdrawal (st : St) (txId : Nat) (reason : Option String) : St × Resp :=
  match findTx st txId with
  | none => (st, Resp.err 404 "Transaction not found")
  | some tx =>
    if tx.status ≠ TxStatus.pending then
      (st, Resp.err 400 "Transaction already processed")
    else
      ({ st with txs := st.txs.map fun t =>
           if t.id == txId then
             { t with status := TxStatus.rejected,
                      reference := reason.getD "Rejected by admin" }
           else t },
       Resp.ok "Withdrawal rejected")

/-! ## Deposit webhook (`app.post('/api/payments/webhook')`) -/

/-- The webhook request body: the payment status string, the numeric value of
the `amount` field (the handler applies `parseFloat` to it) and the account id
carried in `metadata.user_id`. -/
structure WebhookPayload where
  status : String
  amount : ℚ
  userId : Nat
deriving Repr, DecidableEq

/-- The webhook handler over the user collection.  On `"completed"` it credits
the located account by the numeric amount; on `"failed"` and on any other
status it acknowledges with HTTP 200 and writes nothing.  No idempotency key
is consulted. -/
def applyWebhook (users : List User) (p : WebhookPayload) : List User × Resp :=
  if p.status = "completed" then
    match users.find? (fun u => u.id == p.userId) with
    | none => (users, Resp.err 404 "User not found")
    | some u =>
      (users.map fun v =>
         if v.id == u.id then { v with balance := v.balance + p.amount } else v,
       Resp.ok "Payment processed")
  else if p.status = "failed" then
    (users, Resp.ok "Payment failed")
  else
    (users, Resp.ok "Payment processing")

/-! ## Signup (`app.post('/api/auth/signup')`) -/

/-- JavaScript `String.prototype.toLowerCase`, as the char-wise lowercase
map. -/
def lowerStr (s : String) : String :=
  String.mk (s.data.map Char.toLower)

/-- JavaScript `String.prototype.includes`: substring containment. -/
def jsIncludes (hay needle : String) : Bool :=
  decide (needle.data <:+: hay.data)

/-- What the signup handler produces: the updated user collection, the created
user document (if any) and the response. -/
structure SignupResult where
  newUsers : List User
  created : Option User
  resp : Resp
deriving Repr, DecidableEq

/-- The signup handler.  `hash` stands for `bcrypt.hash`, `newId` for the
fresh Mongo `_id` and `now` for `Date.now`.  Missing fields (JS falsy = empty
string) give 400, an existing email gives 400, otherwise a user is created
with the schema-default balance 0 and
`isAdmin = email.toLowerCase().includes('admin')`. -/
def signup (hash : String → String) (users : List User)
    (email password phone : String) (newId now : Nat) : SignupResult :=
  if email = "" ∨ password = "" ∨ phone = "" then
    ⟨users, none, Resp.err 400 "All fields are required"⟩
  else if (users.find? fun u => u.email == email).isSome then
    ⟨users, none, Resp.err 400 "Email already exists"⟩
  else
    let u : User :=
      { id := newId
        email := email
        password := hash password
        phone := phone
        balance := 0
        isAdmin := jsIncludes (lowerStr email) "admin"
        createdAt := now }
    ⟨users ++ [u], some u, Resp.ok "signed up"⟩

/-! ## Game-settings update (`app.put('/api/admin/game-settings')`) -/

/-- The stored `payoutMultipliers` object as the update handler sees it: each
sub-field may be absent (`undefined`), since assigning a partial object to the
nested path replaces the object wholesale. -/
structure StoredMultipliers where
  threeMatches : Option ℚ
  twoMatches : Option ℚ
  oneMatch : Option ℚ
deriving Repr, DecidableEq

/-- The game-settings document as the update handler sees it. -/
structure StoredSettings where
  houseFee : ℚ
  maxBet : ℚ
  minBet : ℚ
  payoutMultipliers : StoredMultipliers
deriving Repr, DecidableEq

/-- The update request body: each top-level field may be absent. -/
structure SettingsUpdate where
  houseFee : Option ℚ
  maxBet : Option ℚ
  minBet : Option ℚ
  payoutMultipliers : Option StoredMultipliers
deriving Repr, DecidableEq

/-- The update handler: `if (field !== undefined) settings.field = field` for
the three scalars, and `if (payoutMultipliers) settings.payoutMultipliers =
payoutMultipliers` — the supplied object replaces the stored object as a
whole. -/
def updateGameSettings (s : StoredSettings) (r : SettingsUpdate) : StoredSettings :=
  let s1 := match r.houseFee with
    | some v => { s with houseFee := v }
    | none => s
  let s2 := match r.maxBet with
    | some v => { s1 with maxBet := v }
    | none => s1
  let s3 := match r.minBet with
    | some v => { s2 with minBet := v }
    | none => s2
  match r.payoutMultipliers with
  | some pm => { s3 with payoutMultipliers := pm }
  | none => s3

/-! ## Admin user listing (`app.get('/api/admin/users')`) -/

/-- A user document after `.select('-password')`: every schema field except
the password hash. -/
structure PublicUser where
  id : Nat
  email : String
  phone : String
  balance : ℚ
  isAdmin : Bool
  createdAt : Nat
deriving Repr, DecidableEq

/-- Projection of `.select('-password')`. -/
def toPublicUser (u : User) : PublicUser :=
  { id := u.id
    email := u.email
    phone := u.phone
    balance := u.balance
    isAdmin := u.isAdmin
    createdAt := u.createdAt }

/-- Insertion step for the `createdAt`-descending sort. -/
def insertByCreatedAtDesc (u : User) : List User → List User
  | [] => [u]
  | v :: vs =>
    if v.createdAt ≤ u.createdAt then u :: v :: vs
    else v :: insertByCreatedAtDesc u vs

/-- `.sort({ createdAt: -1 })`: newest first. -/
def sortByCreatedAtDesc : List User → List User
  | [] => []
  | u :: us => insertByCreatedAtDesc u (sortByCreatedAtDesc us)

/-- The list-users handler: `User.find({ isAdmin: false })`, password
projected away, sorted newest first. -/
def adminListUsers (users : List User) : List PublicUser :=
  (sortByCreatedAtDesc (users.filter fun u => u.isAdmin == false)).map toPublicUser

/-! ## Theorems -/

/-- C1: every wager settled by the play handler has
`profit = bet * multiplier[matchCount] - bet` (with multiplier 0 at zero
matches), and the saved balance is the old balance plus that profit. -/
theorem gamePlay_profit_balance (settings : GameSettings) (balance bet : ℚ)
    (guesses winningNumbers : List Nat)
    (hbet : 0 < bet) (hlen : guesses.length = 3)
    (hmin : settings.minBet ≤ bet) (hmax : bet ≤ settings.maxBet)
    (hbal : bet ≤ balance) :
    (gamePlay settings balance bet guesses winningNumbers).error = none ∧
    (gamePlay settings balance bet guesses winningNumbers).record =
      some ⟨bet, guesses, winningNumbers, countMatches guesses winningNumbers,
        bet * multiplierTable settings (countMatches guesses winningNumbers) - bet,
        balance,
        balance + (bet * multiplierTable settings (countMatches guesses winningNumbers) - bet)⟩ ∧
    (gamePlay settings balance bet guesses winningNumbers).newBalance =
      balance + (bet * multiplierTable settings (countMatches guesses winningNumbers) - bet) := by
  unfold gamePlay
  rw [if_neg (not_or.mpr ⟨not_le.mpr hbet, fun h => h hlen⟩),
    if_neg (not_or.mpr ⟨not_lt.mpr hmin, not_lt.mpr hmax⟩),
    if_neg (not_lt.mpr hbal)]
  refine ⟨rfl, ?_, ?_⟩ <;> simp [winAmountOf_eq_mul]

/-- C1 witness: the spec's worked example — balance 50, bet 10, guesses
4,4,4 against the draw 4,4,9: two matches, profit 90, balance 140. -/
theorem gamePlay_profit_balance_witness :
    (gamePlay defaultGameSettings 50 10 [4, 4, 4] [4, 4, 9]).error = none ∧
    (gamePlay defaultGameSettings 50 10 [4, 4, 4] [4, 4, 9]).record =
      some ⟨10, [4, 4, 4], [4, 4, 9], countMatches [4, 4, 4] [4, 4, 9],
        10 * multiplierTable defaultGameSettings (countMatches [4, 4, 4] [4, 4, 9]) - 10,
        50, 50 + (10 * multiplierTable defaultGameSettings (countMatches [4, 4, 4] [4, 4, 9]) - 10)⟩ ∧
    (gamePlay defaultGameSettings 50 10 [4, 4, 4] [4, 4, 9]).newBalance =
      50 + (10 * multiplierTable defaultGameSettings (countMatches [4, 4, 4] [4, 4, 9]) - 10) :=
  gamePlay_profit_balance defaultGameSettings 50 10 [4, 4, 4] [4, 4, 9]
    (by norm_num) rfl (by norm_num [defaultGameSettings]) (by norm_num [defaultGameSettings])
    (by norm_num)

/-- C2: the match count is position-wise — it equals the number of indices
`i < 3` at which the guess equals the drawn digit at the same index — and
guesses 1,2,3 against the draw 3,2,1 yield exactly one match, not three. -/
theorem countMatches_positionwise (guesses winningNumbers : List Nat)
    (hg : guesses.length = 3) (hw : winningNumbers.length = 3) :
    countMatches guesses winningNumbers =
      ((List.range 3).countP fun i => guesses.getD i 0 == winningNumbers.getD i 0) ∧
    countMatches [1, 2, 3] [3, 2, 1] = 1 := by
  constructor
  · match guesses, winningNumbers, hg, hw with
    | [a, b, c], [d, e, f], _, _ => rfl
  · rfl

/-- C2 witness: the characterization at the claim's own example. -/
theorem countMatches_positionwise_witness :
    countMatches [1, 2, 3] [3, 2, 1] =
      ((List.range 3).countP fun i => [1, 2, 3].getD i 0 == [3, 2, 1].getD i 0) ∧
    countMatches [1, 2, 3] [3, 2, 1] = 1 :=
  countMatches_positionwise [1, 2, 3] [3, 2, 1] rfl rfl

/-- C3: a wager with `bet < minBet`, `bet > maxBet` or `bet > balance` is
rejected with an error and nothing is persisted: the balance is unchanged and
no game record or ledger entry is written. -/
theorem gamePlay_rejected_bet (settings : GameSettings) (balance bet : ℚ)
    (guesses winningNumbers : List Nat)
    (h : bet < settings.minBet ∨ settings.maxBet < bet ∨ balance < bet) :
    ((gamePlay settings balance bet guesses winningNumbers).error).isSome = true ∧
    (gamePlay settings balance bet guesses winningNumbers).newBalance = balance ∧
    (gamePlay settings balance bet guesses winningNumbers).record = none ∧
    (gamePlay settings balance bet guesses winningNumbers).entries = [] := by
  unfold gamePlay
  split
  · exact ⟨rfl, rfl, rfl, rfl⟩
  split
  · exact ⟨rfl, rfl, rfl, rfl⟩
  split
  · exact ⟨rfl, rfl, rfl, rfl⟩
  · rename_i h1 h2 h3
    rcases h with h | h | h
    · exact absurd (Or.inl h) h2
    · exact absurd (Or.inr h) h2
    · exact absurd h h3

/-- C3 witness: a bet of 2000 against the default maximum of 1000 is
rejected and the balance of 50 is untouched. -/
theorem gamePlay_rejected_bet_witness :
    ((gamePlay defaultGameSettings 50 2000 [1, 2, 3] [0, 0, 0]).error).isSome = true ∧
    (gamePlay defaultGameSettings 50 2000 [1, 2, 3] [0, 0, 0]).newBalance = 50 ∧
    (gamePlay defaultGameSettings 50 2000 [1, 2, 3] [0, 0, 0]).record = none ∧
    (gamePlay defaultGameSettings 50 2000 [1, 2, 3] [0, 0, 0]).entries = [] :=
  gamePlay_rejected_bet defaultGameSettings 50 2000 [1, 2, 3] [0, 0, 0]
    (Or.inr (Or.inl (by norm_num [defaultGameSettings])))

/-- C8: a settled wager persists exactly one completed `bet` ledger entry,
and a completed `win` ledger entry exactly when the payout is positive. -/
theorem gamePlay_ledger (settings : GameSettings) (balance bet : ℚ)
    (guesses winningNumbers : List Nat)
    (hbet : 0 < bet) (hlen : guesses.length = 3)
    (hmin : settings.minBet ≤ bet) (hmax : bet ≤ settings.maxBet)
    (hbal : bet ≤ balance) :
    ((gamePlay settings balance bet guesses winningNumbers).entries.filter
        fun e => e.type == TxType.bet) =
      [⟨TxType.bet, bet, TxStatus.completed⟩] ∧
    ((gamePlay settings balance bet guesses winningNumbers).entries.filter
        fun e => e.type == TxType.win) =
      (if 0 < winAmountOf settings bet (countMatches guesses winningNumbers) then
        [⟨TxType.win, winAmountOf settings bet (countMatches guesses winningNumbers),
          TxStatus.completed⟩]
      else []) := by
  unfold gamePlay
  rw [if_neg (not_or.mpr ⟨not_le.mpr hbet, fun h => h hlen⟩),
    if_neg (not_or.mpr ⟨not_lt.mpr hmin, not_lt.mpr hmax⟩),
    if_neg (not_lt.mpr hbal)]
  by_cases hw : 0 < winAmountOf settings bet (countMatches guesses winningNumbers) <;>
    simp [hw, List.filter, show (TxType.bet == TxType.win) = false from rfl,
      show (TxType.win == TxType.win) = true from rfl,
      show (TxType.bet == TxType.bet) = true from rfl]

/-- C8 witness: the spec's example wager (two matches, payout 100) persists
one bet entry and one win entry. -/
theorem gamePlay_ledger_witness :
    ((gamePlay defaultGameSettings 50 10 [4, 4, 4] [4, 4, 9]).entries.filter
        fun e => e.type == TxType.bet) =
      [⟨TxType.bet, 10, TxStatus.completed⟩] ∧
    ((gamePlay defaultGameSettings 50 10 [4, 4, 4] [4, 4, 9]).entries.filter
        fun e => e.type == TxType.win) =
      (if 0 < winAmountOf defaultGameSettings 10 (countMatches [4, 4, 4] [4, 4, 9]) then
        [⟨TxType.win, winAmountOf defaultGameSettings 10 (countMatches [4, 4, 4] [4, 4, 9]),
          TxStatus.completed⟩]
      else []) :=
  gamePlay_ledger defaultGameSettings 50 10 [4, 4, 4] [4, 4, 9]
    (by norm_num) rfl (by norm_num [defaultGameSettings]) (by norm_num [defaultGameSettings])
    (by norm_num)

/-- The transaction list after an approval attempt: either untouched (any
error branch) or, when a pending transaction was found, with that id's status
set to approved. -/
theorem approveWithdrawal_txs (st : St) (txId : Nat) :
    (approveWithdrawal st txId).1.txs = st.txs ∨
    ∃ tx, findTx st txId = some tx ∧ tx.status = TxStatus.pending ∧
      (approveWithdrawal st txId).1.txs =
        st.txs.map fun t =>
          if t.id == txId then { t with status := TxStatus.approved } else t := by
  unfold approveWithdrawal
  split
  · exact Or.inl rfl
  · rename_i tx htx
    split
    · exact Or.inl rfl
    · rename_i hnp
      split
      · exact Or.inl rfl
      · rename_i u hu
        split
        · exact Or.inl rfl
        · exact Or.inr ⟨tx, htx, not_not.mp hnp, rfl⟩

/-- The transaction list after a rejection attempt: either untouched or, when
a pending transaction was found, with that id's status set to rejected. -/
theorem rejectWithdrawal_txs (st : St) (txId : Nat) (reason : Option String) :
    (rejectWithdrawal st txId reason).1.txs = st.txs ∨
    ∃ tx, findTx st txId = some tx ∧ tx.status = TxStatus.pending ∧
      (rejectWithdrawal st txId reason).1.txs =
        st.txs.map fun t =>
          if t.id == txId then
            { t with status := TxStatus.rejected,
                     reference := reason.getD "Rejected by admin" }
          else t := by
  unfold rejectWithdrawal
  split
  · exact Or.inl rfl
  · rename_i tx htx
    split
    · exact Or.inl rfl
    · rename_i hnp
      exact Or.inr ⟨tx, htx, not_not.mp hnp, rfl⟩

/-- C4: approving a pending withdrawal whose user's balance is below the
amount fails with an error and returns the state untouched: the transaction
stays pending and the balance is unchanged. -/
theorem approveWithdrawal_insufficient (st : St) (txId : Nat) (tx : Transaction) (u : User)
    (htx : findTx st txId = some tx) (hpend : tx.status = TxStatus.pending)
    (hu : findUser st tx.userId = some u) (hbal : u.balance < tx.amount) :
    approveWithdrawal st txId = (st, Resp.err 400 "User has insufficient balance") := by
  unfold approveWithdrawal
  rw [htx]
  simp only [hu, if_neg (not_not.mpr hpend), if_pos hbal]

/-- C4 witness: transaction of 20 against a balance of 5. -/
theorem approveWithdrawal_insufficient_witness :
    approveWithdrawal
      ⟨[⟨1, "u@x", "h", "p", 5, false, 0⟩],
       [⟨10, 1, TxType.withdrawal, 20, TxStatus.pending, "r"⟩]⟩ 10 =
    (⟨[⟨1, "u@x", "h", "p", 5, false, 0⟩],
      [⟨10, 1, TxType.withdrawal, 20, TxStatus.pending, "r"⟩]⟩,
     Resp.err 400 "User has insufficient balance") :=
  approveWithdrawal_insufficient _ 10
    ⟨10, 1, TxType.withdrawal, 20, TxStatus.pending, "r"⟩
    ⟨1, "u@x", "h", "p", 5, false, 0⟩ rfl rfl rfl (by norm_num)

/-- C5: withdrawal transactions move only along pending-to-approved and
pending-to-rejected.  An approve or reject attempt on a non-pending
transaction returns the conflict error and leaves the state unchanged, so
approved and rejected are terminal; and (given distinct transaction ids, a
database invariant) any transaction changed by either handler was pending and
becomes approved resp. rejected. -/
theorem withdrawalStateMachine (st : St) (txId : Nat) (reason : Option String) :
    (∀ tx, findTx st txId = some tx → tx.status ≠ TxStatus.pending →
      approveWithdrawal st txId = (st, Resp.err 400 "Transaction already processed") ∧
      rejectWithdrawal st txId reason = (st, Resp.err 400 "Transaction already processed")) ∧
    ((st.txs.map Transaction.id).Nodup →
      ∀ t' ∈ (approveWithdrawal st txId).1.txs,
        t' ∈ st.txs ∨ ∃ t ∈ st.txs, t.status = TxStatus.pending ∧
          t'.id = t.id ∧ t'.status = TxStatus.approved) ∧
    ((st.txs.map Transaction.id).Nodup →
      ∀ t' ∈ (rejectWithdrawal st txId reason).1.txs,
        t' ∈ st.txs ∨ ∃ t ∈ st.txs, t.status = TxStatus.pending ∧
          t'.id = t.id ∧ t'.status = TxStatus.rejected) := by
  refine ⟨?_, ?_, ?_⟩
  · intro tx htx hnp
    constructor
    · simp only [approveWithdrawal, htx]
      rw [if_pos hnp]
    · simp only [rejectWithdrawal, htx]
      rw [if_pos hnp]
  · intro hnd t' ht'
    rcases approveWithdrawal_txs st txId with heq | ⟨tx, htx, hpend, heq⟩
    · rw [heq] at ht'
      exact Or.inl ht'
    · rw [heq] at ht'
      obtain ⟨t, ht, rfl⟩ := List.mem_map.mp ht'
      by_cases hid : t.id = txId
      · have htxp : tx.id = txId := by simpa using List.find?_some htx
        have hteq : t = tx :=
          List.inj_on_of_nodup_map hnd ht (List.mem_of_find?_eq_some htx)
            (by rw [hid, htxp])
        refine Or.inr ⟨t, ht, hteq ▸ hpend, ?_, ?_⟩
        · simp [hid]
        · simp [hid]
      · have hne : (t.id == txId) = false := by simpa using hid
        rw [hne]
        exact Or.inl (by simpa using ht)
  · intro hnd t' ht'
    rcases rejectWithdrawal_txs st txId reason with heq | ⟨tx, htx, hpend, heq⟩
    · rw [heq] at ht'
      exact Or.inl ht'
    · rw [heq] at ht'
      obtain ⟨t, ht, rfl⟩ := List.mem_map.mp ht'
      by_cases hid : t.id = txId
      · have htxp : tx.id = txId := by simpa using List.find?_some htx
        have hteq : t = tx :=
          List.inj_on_of_nodup_map hnd ht (List.mem_of_find?_eq_some htx)
            (by rw [hid, htxp])
        refine Or.inr ⟨t, ht, hteq ▸ hpend, ?_, ?_⟩
        · simp [hid]
        · simp [hid]
      · have hne : (t.id == txId) = false := by simpa using hid
        rw [hne]
        exact Or.inl (by simpa using ht)

/-- C5 witness: a second approve or reject on an already-approved transaction
returns the conflict error and changes nothing. -/
theorem withdrawalStateMachine_witness :
    approveWithdrawal
      ⟨[⟨1, "u@x", "h", "p", 5, false, 0⟩],
       [⟨10, 1, TxType.withdrawal, 20, TxStatus.approved, "r"⟩]⟩ 10 =
    (⟨[⟨1, "u@x", "h", "p", 5, false, 0⟩],
      [⟨10, 1, TxType.withdrawal, 20, TxStatus.approved, "r"⟩]⟩,
     Resp.err 400 "Transaction already processed") ∧
    rejectWithdrawal
      ⟨[⟨1, "u@x", "h", "p", 5, false, 0⟩],
       [⟨10, 1, TxType.withdrawal, 20, TxStatus.approved, "r"⟩]⟩ 10 none =
    (⟨[⟨1, "u@x", "h", "p", 5, false, 0⟩],
      [⟨10, 1, TxType.withdrawal, 20, TxStatus.approved, "r"⟩]⟩,
     Resp.err 400 "Transaction already processed") :=
  (withdrawalStateMachine _ 10 none).1
    ⟨10, 1, TxType.withdrawal, 20, TxStatus.approved, "r"⟩ rfl (by decide)

/-- Updating the balance of every user matching an id commutes with looking
that id up: the lookup returns the updated document. -/
theorem find?_update_balance (users : List User) (uid : Nat) (amt : ℚ) :
    ((users.map fun v =>
        if v.id == uid then { v with balance := v.balance + amt } else v).find?
      fun v => v.id == uid) =
      (users.find? fun v => v.id == uid).map
        fun u => { u with balance := u.balance + amt } := by
  induction users with
  | nil => rfl
  | cons v vs ih =>
    cases hpa : v.id == uid with
    | true =>
      have h : v.id = uid := by simpa using hpa
      simp [List.map_cons, List.find?_cons, hpa, h, -List.find?_map]
    | false =>
      have h : ¬ v.id = uid := by simpa using hpa
      simpa [List.map_cons, List.find?_cons, hpa, h, -List.find?_map] using ih

/-- C6: a webhook callback with status `"completed"` for an existing account
credits that account by exactly the numeric amount; any other status is
acknowledged with a success response and mutates nothing; and replaying the
identical completed callback credits the amount a second time. -/
theorem applyWebhook_spec (users : List User) (p : WebhookPayload) (u : User) :
    (p.status = "completed" →
      (users.find? fun v => v.id == p.userId) = some u →
      (applyWebhook users p).2 = Resp.ok "Payment processed" ∧
      ((applyWebhook users p).1.find? fun v => v.id == p.userId) =
        some { u with balance := u.balance + p.amount } ∧
      ((applyWebhook (applyWebhook users p).1 p).1.find? fun v => v.id == p.userId) =
        some { u with balance := u.balance + p.amount + p.amount }) ∧
    (p.status ≠ "completed" →
      (applyWebhook users p).1 = users ∧
      ((applyWebhook users p).2 = Resp.ok "Payment failed" ∨
       (applyWebhook users p).2 = Resp.ok "Payment processing")) := by
  constructor
  · intro hc hu
    have step : ∀ (us : List User) (w : User),
        (us.find? fun v => v.id == p.userId) = some w →
        (applyWebhook us p).2 = Resp.ok "Payment processed" ∧
        ((applyWebhook us p).1.find? fun v => v.id == p.userId) =
          some { w with balance := w.balance + p.amount } := by
      intro us w hw
      have hid : w.id = p.userId := by simpa using List.find?_some hw
      constructor
      · simp only [applyWebhook, if_pos hc, hw]
      · simp only [applyWebhook, if_pos hc, hw]
        rw [hid, find?_update_balance us p.userId p.amount, hw]
        simp [hid]
    obtain ⟨hresp, hfind1⟩ := step users u hu
    obtain ⟨_, hfind2⟩ := step (applyWebhook users p).1 _ hfind1
    exact ⟨hresp, hfind1, by simpa using hfind2⟩
  · intro hnc
    unfold applyWebhook
    rw [if_neg hnc]
    by_cases hf : p.status = "failed" <;> simp [hf]

/-- C6 witness: crediting 25.50 to an account holding 50, once and twice. -/
theorem applyWebhook_spec_witness :
    (applyWebhook [⟨1, "u@x", "h", "p", 50, false, 0⟩] ⟨"completed", 25.50, 1⟩).2 =
      Resp.ok "Payment processed" ∧
    ((applyWebhook [⟨1, "u@x", "h", "p", 50, false, 0⟩] ⟨"completed", 25.50, 1⟩).1.find?
        fun v => v.id == (⟨"completed", 25.50, 1⟩ : WebhookPayload).userId) =
      some ⟨1, "u@x", "h", "p", 50 + 25.50, false, 0⟩ ∧
    ((applyWebhook
        (applyWebhook [⟨1, "u@x", "h", "p", 50, false, 0⟩] ⟨"completed", 25.50, 1⟩).1
        ⟨"completed", 25.50, 1⟩).1.find?
      fun v => v.id == (⟨"completed", 25.50, 1⟩ : WebhookPayload).userId) =
      some ⟨1, "u@x", "h", "p", 50 + 25.50 + 25.50, false, 0⟩ :=
  (applyWebhook_spec [⟨1, "u@x", "h", "p", 50, false, 0⟩] ⟨"completed", 25.50, 1⟩
    ⟨1, "u@x", "h", "p", 50, false, 0⟩).1 rfl rfl

/-- C7: a valid signup (all three fields present, email not taken) creates
exactly one account, appended to the collection, whose balance is 0 and whose
admin flag is set precisely when the lowercased email contains the substring
`admin`. -/
theorem signup_spec (hash : String → String) (users : List User)
    (email password phone : String) (newId now : Nat)
    (he : email ≠ "") (hp : password ≠ "") (hph : phone ≠ "")
    (hfree : ∀ u ∈ users, u.email ≠ email) :
    ∃ u, (signup hash users email password phone newId now).created = some u ∧
      (signup hash users email password phone newId now).newUsers = users ++ [u] ∧
      u.balance = 0 ∧
      (u.isAdmin = true ↔ "admin".data <:+: (lowerStr email).data) := by
  have hnf : ¬ ((users.find? fun u => u.email == email).isSome = true) := by
    rw [List.find?_isSome]
    rintro ⟨x, hx, hbe⟩
    exact hfree x hx (by simpa using hbe)
  unfold signup
  rw [if_neg (not_or.mpr ⟨he, not_or.mpr ⟨hp, hph⟩⟩), if_neg hnf]
  exact ⟨_, rfl, rfl, rfl, by simp [jsIncludes]⟩

/-- C7 witness: signing up with the email `Admin@x.com` on an empty
collection yields a zero-balance account flagged as admin. -/
theorem signup_spec_witness :
    ∃ u, (signup (fun s => s) [] "Admin@x.com" "pw" "1" 1 0).created = some u ∧
      (signup (fun s => s) [] "Admin@x.com" "pw" "1" 1 0).newUsers = [] ++ [u] ∧
      u.balance = 0 ∧
      (u.isAdmin = true ↔ "admin".data <:+: (lowerStr "Admin@x.com").data) :=
  signup_spec (fun s => s) [] "Admin@x.com" "pw" "1" 1 0
    (by decide) (by decide) (by decide) (by simp)

/-- C9 counterexample: the stored multipliers are 100, 10, 2; the request
supplies only `oneMatch := 5` inside `payoutMultipliers`.  The
`twoMatches` multiplier was not supplied, yet it does not retain its previous
value 10 — the whole nested object is replaced. -/
theorem updateGameSettings_not_fieldwise :
    ¬ ((updateGameSettings ⟨10, 1000, 1, ⟨some 100, some 10, some 2⟩⟩
          ⟨none, none, none, some ⟨none, none, some 5⟩⟩).payoutMultipliers.twoMatches =
        some 10) := by
  decide

/-- C9 (amended): the update has partial-update semantics at the top level —
`houseFee`, `maxBet`, `minBet` and the `payoutMultipliers` object each change
exactly when supplied — but a supplied `payoutMultipliers` replaces the
stored object wholesale, so multiplier sub-fields omitted from it are lost
rather than retained. -/
theorem updateGameSettings_semantics (s : StoredSettings) (r : SettingsUpdate) :
    ((r.houseFee = none → (updateGameSettings s r).houseFee = s.houseFee) ∧
     (∀ v, r.houseFee = some v → (updateGameSettings s r).houseFee = v)) ∧
    ((r.maxBet = none → (updateGameSettings s r).maxBet = s.maxBet) ∧
     (∀ v, r.maxBet = some v → (updateGameSettings s r).maxBet = v)) ∧
    ((r.minBet = none → (updateGameSettings s r).minBet = s.minBet) ∧
     (∀ v, r.minBet = some v → (updateGameSettings s r).minBet = v)) ∧
    ((r.payoutMultipliers = none →
        (updateGameSettings s r).payoutMultipliers = s.payoutMultipliers) ∧
     (∀ pm, r.payoutMultipliers = some pm →
        (updateGameSettings s r).payoutMultipliers = pm)) := by
  obtain ⟨hf, mb, mn, pm⟩ := r
  cases hf <;> cases mb <;> cases mn <;> cases pm <;>
    simp [updateGameSettings]

/-- C9 witness: supplying only `houseFee` changes it and keeps `maxBet` and
the whole multipliers object. -/
theorem updateGameSettings_semantics_witness :
    (updateGameSettings ⟨10, 1000, 1, ⟨some 100, some 10, some 2⟩⟩
        ⟨some 12, none, none, none⟩).houseFee = 12 ∧
    (updateGameSettings ⟨10, 1000, 1, ⟨some 100, some 10, some 2⟩⟩
        ⟨some 12, none, none, none⟩).maxBet = 1000 ∧
    (updateGameSettings ⟨10, 1000, 1, ⟨some 100, some 10, some 2⟩⟩
        ⟨some 12, none, none, none⟩).payoutMultipliers = ⟨some 100, some 10, some 2⟩ :=
  ⟨(updateGameSettings_semantics ⟨10, 1000, 1, ⟨some 100, some 10, some 2⟩⟩
      ⟨some 12, none, none, none⟩).1.2 12 rfl,
   (updateGameSettings_semantics ⟨10, 1000, 1, ⟨some 100, some 10, some 2⟩⟩
      ⟨some 12, none, none, none⟩).2.1.1 rfl,
   (updateGameSettings_semantics ⟨10, 1000, 1, ⟨some 100, some 10, some 2⟩⟩
      ⟨some 12, none, none, none⟩).2.2.2.1 rfl⟩

theorem mem_insertByCreatedAtDesc {v u : User} {l : List User} :
    v ∈ insertByCreatedAtDesc u l ↔ v = u ∨ v ∈ l := by
  induction l with
  | nil => simp [insertByCreatedAtDesc]
  | cons w ws ih =>
    by_cases h : w.createdAt ≤ u.createdAt
    · simp [insertByCreatedAtDesc, h, ih]
    · simp [insertByCreatedAtDesc, h, ih]
      tauto

theorem mem_sortByCreatedAtDesc {v : User} {l : List User} :
    v ∈ sortByCreatedAtDesc l ↔ v ∈ l := by
  induction l with
  | nil => simp [sortByCreatedAtDesc]
  | cons u us ih => simp [sortByCreatedAtDesc, mem_insertByCreatedAtDesc, ih]

/-- C10: every account returned by the admin user listing has a false admin
flag and comes from a non-admin document of the collection, and the returned
shape carries no password hash: the projection is insensitive to it. -/
theorem adminListUsers_spec (users : List User) (v : PublicUser)
    (hv : v ∈ adminListUsers users) :
    v.isAdmin = false ∧
    (∃ u ∈ users, u.isAdmin = false ∧ v = toPublicUser u) ∧
    (∀ (u : User) (pw : String), toPublicUser { u with password := pw } = toPublicUser u) := by
  obtain ⟨u, hu, rfl⟩ := List.mem_map.mp hv
  rw [mem_sortByCreatedAtDesc] at hu
  obtain ⟨humem, hadm⟩ := List.mem_filter.mp hu
  have hadm' : u.isAdmin = false := by simpa using hadm
  exact ⟨hadm', ⟨u, humem, hadm', rfl⟩, fun _ _ => rfl⟩

/-- C10 witness: a collection with one regular and one admin account lists
exactly the regular account, admin flag false. -/
theorem adminListUsers_spec_witness :
    (toPublicUser ⟨1, "bob@x", "h", "p", 5, false, 0⟩).isAdmin = false ∧
    (∃ u ∈ [(⟨1, "bob@x", "h", "p", 5, false, 0⟩ : User),
            ⟨2, "admin@x", "h2", "p2", 9, true, 1⟩],
      u.isAdmin = false ∧
      toPublicUser ⟨1, "bob@x", "h", "p", 5, false, 0⟩ = toPublicUser u) ∧
    (∀ (u : User) (pw : String), toPublicUser { u with password := pw } = toPublicUser u) :=
  adminListUsers_spec
    [⟨1, "bob@x", "h", "p", 5, false, 0⟩, ⟨2, "admin@x", "h2", "p2", 9, true, 1⟩]
    (toPublicUser ⟨1, "bob@x", "h", "p", 5, false, 0⟩) (by decide)

end LuckyTriple
